import Mathlib

/-!
Verification of `src/train_miccai2018.py` (voxelmorph, MICCAI-2018 training
script).  The script is shallowly embedded: the `train` function becomes a
pure Lean function from an environment (filesystem / random facts the script
observes) and its arguments to a trace of the observable actions it performs,
together with an optional fatal error.  External library behaviour that the
script relies on (numpy array reshaping, Keras `fit_generator` epoch loop and
`ModelCheckpoint` file naming) is modelled by small definitions that follow
the documented semantics of those libraries.
-/

namespace Voxelmorph

/-- A numpy array: its shape together with its flattened data
(row-major).  Only structural operations (`np.newaxis` indexing and
`np.repeat`) are performed on arrays by the script, so this level of
detail is faithful. -/
structure NpArray where
  shape : List Nat
  data : List Float

/-- Numpy indexing `a[np.newaxis, ..., np.newaxis]`: add a leading batch dimension and a
trailing channel dimension, both of size 1.  The flattened data is
unchanged. -/
def expandDims (a : NpArray) : NpArray :=
  { shape := 1 :: a.shape ++ [1], data := a.data }

/-- Numpy `np.repeat(a, k, axis=0)`: each slice along axis 0 is repeated `k`
times consecutively; the leading dimension is multiplied by `k`. -/
def npRepeatAxis0 (a : NpArray) (k : Nat) : NpArray :=
  match a.shape with
  | [] => a
  | d :: rest =>
    { shape := d * k :: rest
      data := ((List.range d).map (fun i =>
        (List.replicate k ((a.data.drop (i * rest.prod)).take rest.prod)).flatten)).flatten }

/-- Whether `s` ends with `p`, computed on the character lists. -/
def strEndsWith (s p : String) : Bool :=
  p.data.isSuffixOf s.data

/-- Whether `s` starts with `p`, computed on the character lists. -/
def strStartsWith (s p : String) : Bool :=
  p.data.isPrefixOf s.data

/-- Python `os.path.join dir f`: append a path separator unless `dir` already ends
with one (the only cases the script exercises). -/
def pathJoin (dir f : String) : String :=
  (if strEndsWith dir "/" then dir else dir ++ "/") ++ f

/-- Whether a directory entry name matches the glob pattern `*.npz`:
the name ends in `.npz`, and (glob semantics) the `*` wildcard does not
match a leading dot, so hidden files are excluded. -/
def matchesNpzPattern (name : String) : Bool :=
  strEndsWith name ".npz" && !strStartsWith name "."

/-- The glob of pattern `*.npz` under `data_dir`: the entries directly
inside `data_dir` (non-recursive) whose names match `*.npz`, each joined
with `data_dir`.  `entries` is the directory listing in filesystem order. -/
def globNpz (data_dir : String) (entries : List String) : List String :=
  (entries.filter matchesNpzPattern).map (pathJoin data_dir)

/-- The format `%02d` applied to `n`: decimal digits of `n`, left-padded
with the zero character to a minimum width of 2. -/
def fmt2 (n : Nat) : String :=
  ⟨List.leftpad 2 '0' (Nat.toDigits 10 n)⟩

/-- The checkpoint file name used by the script for epoch number `e`:
the zero-padded epoch number with the Keras model extension `.h5`,
under `model_dir`. -/
def ckptPath (model_dir : String) (e : Nat) : String :=
  pathJoin model_dir (fmt2 e ++ ".h5")

/-- The observable actions `train` performs, in program order. -/
inductive Event where
  | loadAtlas (file : String)
  | globData (dir : String)
  | shuffleData
  | mkModelDir (dir : String)
  | setCudaEnv (gpuId : Int)
  | configSession
  | buildModel (volSize : List Nat)
  | loadWeights (file : String)
  | saveModel (path : String)
  | compileModel (optimizer : String) (lossNames : List String)
  | trainStep (epoch : Nat) (step : Nat)
  | checkpoint (path : String)
  deriving DecidableEq, Repr

/-- The two ways `train` can abort. -/
inductive TrainError where
  /-- Reading the vol array via `np.load(atlas_file)` raised (missing or unreadable atlas). -/
  | atlasLoadError
  /-- the `assert len(train_vol_names) > 0` failed. -/
  | noTrainingData
  deriving DecidableEq, Repr

/-- The arguments of the Python `train` function.  Only `initial_epoch`
has a default in the function itself. -/
structure Args where
  data_dir : String
  atlas_file : String
  model_dir : String
  gpu_id : Int
  lr : Float
  nb_epochs : Nat
  prior_lambda : Float
  image_sigma : Float
  steps_per_epoch : Nat
  batch_size : Nat
  load_model_file : Option String
  initial_epoch : Nat := 0

/-- The facts about the outside world the script observes: whether the
atlas file loads (and its `vol` array), the listing of `data_dir`, the
reordering produced by the unseeded `random.shuffle`, and whether
`model_dir` already exists. -/
structure Env where
  atlas : Option NpArray
  dirEntries : List String
  shuffle : List String → List String
  modelDirExists : Bool

/-- The outcome of a run of `train`: the trace of performed events, the
fatal error if any, the atlas array handed to `miccai2018_gen`, and the
(shuffled) training-volume list handed to `example_gen`. -/
structure Result where
  trace : List Event
  error : Option TrainError
  genAtlas : Option NpArray := none
  volNames : List String := []

/-- Modelled from the Keras library: `fit_generator(initial_epoch=i,
epochs=n, steps_per_epoch=s, callbacks=[ModelCheckpoint(model_dir +
sep + template)])` runs epochs `i, i+1, ..., n-1`; each epoch performs
`s` optimization steps and then `ModelCheckpoint` writes a file,
instantiating the epoch placeholder of the template with the 1-based
epoch number `e + 1` (Keras 2 `on_epoch_end` formats with
`epoch = epoch + 1`). -/
def fitTrace (model_dir : String) (initial_epoch nb_epochs steps : Nat) : List Event :=
  ((List.range' initial_epoch (nb_epochs - initial_epoch)).map (fun e =>
    (List.range steps).map (Event.trainStep e) ++ [Event.checkpoint (ckptPath model_dir (e + 1))])).flatten

/-- Shallow embedding of the Python `train` function, in source order:
load the atlas and extend its dims; glob `*.npz` under `data_dir` and
shuffle; assert the list is non-empty; create `model_dir` if absent;
set `CUDA_VISIBLE_DEVICES` and configure the session; build the network;
load initial weights when `load_model_file` is not None; save the
epoch-`initial_epoch` model; compile with Adam and the losses
`[recon_loss, kl_loss]`; build the data generator over the shuffled
names and the batch-replicated atlas; run `fit_generator`. -/
def train (env : Env) (a : Args) : Result :=
  match env.atlas with
  | none => { trace := [Event.loadAtlas a.atlas_file], error := some TrainError.atlasLoadError }
  | some vol =>
    let atlas_vol := expandDims vol
    let vol_size := (atlas_vol.shape.drop 1).dropLast
    let train_vol_names := env.shuffle (globNpz a.data_dir env.dirEntries)
    let pre := [Event.loadAtlas a.atlas_file, Event.globData a.data_dir, Event.shuffleData]
    if train_vol_names.length = 0 then
      { trace := pre, error := some TrainError.noTrainingData }
    else
      let atlas_vol_bs := npRepeatAxis0 atlas_vol a.batch_size
      { trace := pre
          ++ (if env.modelDirExists then [] else [Event.mkModelDir a.model_dir])
          ++ [Event.setCudaEnv a.gpu_id, Event.configSession, Event.buildModel vol_size]
          ++ (match a.load_model_file with
              | some f => [Event.loadWeights f]
              | none => [])
          ++ [Event.saveModel (ckptPath a.model_dir a.initial_epoch),
              Event.compileModel "Adam" ["recon_loss", "kl_loss"]]
          ++ fitTrace a.model_dir a.initial_epoch a.nb_epochs a.steps_per_epoch
        error := none
        genAtlas := some atlas_vol_bs
        volNames := train_vol_names }

/-- The argparse surface of the script: positional `data_dir`, every
option with the default recorded in the parser.  An invocation that
supplies no options yields exactly these values. -/
def cliDefaults (data_dir : String) : Args :=
  { data_dir := data_dir
    atlas_file := "../data/atlas_norm.npz"
    model_dir := "../models/"
    gpu_id := 0
    lr := 1e-4
    nb_epochs := 1500
    prior_lambda := 10
    image_sigma := 0.02
    steps_per_epoch := 100
    batch_size := 1
    load_model_file := some "../models/miccai2018_10_02_init1.h5"
    initial_epoch := 0 }

/-- Events that configure or allocate the GPU device, or build the model
on it: setting `CUDA_VISIBLE_DEVICES`, configuring the TF session, and
constructing the network. -/
def isDeviceEvent : Event → Bool
  | Event.setCudaEnv _ => true
  | Event.configSession => true
  | Event.buildModel _ => true
  | _ => false

/-- The checkpoint artifacts a trace writes, in order: the paths of
`model.save` and of every `ModelCheckpoint` write. -/
def savedPaths (t : List Event) : List String :=
  t.filterMap (fun e =>
    match e with
    | Event.saveModel p => some p
    | Event.checkpoint p => some p
    | _ => none)

/-- Whether an event is the one-time atlas load. -/
def isLoadAtlas : Event → Bool
  | Event.loadAtlas _ => true
  | _ => false

/-- Setup events of the orchestrator: building, weight loading, saving
the initial model, compiling. -/
def isSetupEvent : Event → Bool
  | Event.buildModel _ => true
  | Event.loadWeights _ => true
  | Event.saveModel _ => true
  | Event.compileModel _ _ => true
  | _ => false

/-- Events of the fit loop: optimization steps and per-epoch checkpoint
writes. -/
def isLoopEvent : Event → Bool
  | Event.trainStep _ _ => true
  | Event.checkpoint _ => true
  | _ => false

/-- The weight-loading step: present exactly when `load_model_file` is
not Python `None`. -/
def loadEvents : Option String → List Event
  | some f => [Event.loadWeights f]
  | none => []

/-- A concrete atlas volume: shape `[2]`, two voxels. -/
def sampleAtlas : NpArray :=
  { shape := [2], data := [0.5, 1.5] }

/-- A concrete environment: the atlas loads, `data_dir` holds two
`.npz` files and one other file, the shuffle leaves the order alone,
and `model_dir` exists. -/
def sampleEnv : Env :=
  { atlas := some sampleAtlas
    dirEntries := ["a.npz", "b.npz", "note.txt"]
    shuffle := id
    modelDirExists := true }

/-- Concrete arguments: 2 epochs of 5 steps from epoch 0, no initial
weights. -/
def sampleArgs : Args :=
  { data_dir := "d"
    atlas_file := "atl.npz"
    model_dir := "m"
    gpu_id := 0
    lr := 1e-4
    nb_epochs := 2
    prior_lambda := 10
    image_sigma := 0.02
    steps_per_epoch := 5
    batch_size := 1
    load_model_file := none
    initial_epoch := 0 }

/-- A concrete environment whose data directory holds no `.npz` file. -/
def emptyDataEnv : Env :=
  { atlas := some sampleAtlas
    dirEntries := ["note.txt"]
    shuffle := id
    modelDirExists := true }

/-- A concrete environment suitable for a default-argument CLI run. -/
def cliEnv : Env :=
  { atlas := some sampleAtlas
    dirEntries := ["a.npz"]
    shuffle := id
    modelDirExists := true }

theorem train_eq_of_some (env : Env) (a : Args) (v : NpArray)
    (hv : env.atlas = some v)
    (hne : env.shuffle (globNpz a.data_dir env.dirEntries) ≠ []) :
    train env a =
      { trace := [Event.loadAtlas a.atlas_file, Event.globData a.data_dir, Event.shuffleData]
          ++ (if env.modelDirExists then [] else [Event.mkModelDir a.model_dir])
          ++ [Event.setCudaEnv a.gpu_id, Event.configSession,
              Event.buildModel ((expandDims v).shape.drop 1).dropLast]
          ++ loadEvents a.load_model_file
          ++ [Event.saveModel (ckptPath a.model_dir a.initial_epoch),
              Event.compileModel "Adam" ["recon_loss", "kl_loss"]]
          ++ fitTrace a.model_dir a.initial_epoch a.nb_epochs a.steps_per_epoch
        error := none
        genAtlas := some (npRepeatAxis0 (expandDims v) a.batch_size)
        volNames := env.shuffle (globNpz a.data_dir env.dirEntries) } := by
  have h0 : ¬ (env.shuffle (globNpz a.data_dir env.dirEntries)).length = 0 := by
    simpa [List.length_eq_zero] using hne
  simp only [train, hv, h0, if_false, loadEvents]

theorem mem_fitTrace {md : String} {i n s : Nat} {e : Event}
    (h : e ∈ fitTrace md i n s) :
    (∃ ep st, ep ∈ List.range' i (n - i) ∧ st < s ∧ e = Event.trainStep ep st) ∨
    (∃ ep, ep ∈ List.range' i (n - i) ∧ e = Event.checkpoint (ckptPath md (ep + 1))) := by
  simp only [fitTrace, List.mem_flatten, List.mem_map] at h
  obtain ⟨l, ⟨ep, hep, hl⟩, hel⟩ := h
  subst hl
  rcases List.mem_append.mp hel with hstep | hck
  · obtain ⟨st, hst, he⟩ := List.mem_map.mp hstep
    exact Or.inl ⟨ep, st, hep, List.mem_range.mp hst, he.symm⟩
  · simp only [List.mem_singleton] at hck
    exact Or.inr ⟨ep, hep, hck⟩

theorem fitTrace_loop {md : String} {i n s : Nat} {e : Event}
    (h : e ∈ fitTrace md i n s) : isLoopEvent e = true := by
  rcases mem_fitTrace h with ⟨ep, st, _, _, he⟩ | ⟨ep, _, he⟩ <;> subst he <;> rfl

theorem savedPaths_append (l1 l2 : List Event) :
    savedPaths (l1 ++ l2) = savedPaths l1 ++ savedPaths l2 :=
  List.filterMap_append l1 l2 _

theorem savedPaths_fitTrace (md : String) (i n s : Nat) :
    savedPaths (fitTrace md i n s) =
      (List.range' i (n - i)).map (fun e => ckptPath md (e + 1)) := by
  simp only [fitTrace, savedPaths]
  induction List.range' i (n - i) with
  | nil => rfl
  | cons ep tl ih =>
    simp only [List.map_cons, List.flatten_cons, List.filterMap_append, ih]
    simp [List.filterMap_append, List.filterMap_map]

theorem savedPaths_train (env : Env) (a : Args) (v : NpArray)
    (hv : env.atlas = some v)
    (hne : env.shuffle (globNpz a.data_dir env.dirEntries) ≠ []) :
    savedPaths (train env a).trace =
      ckptPath a.model_dir a.initial_epoch ::
        (List.range' a.initial_epoch (a.nb_epochs - a.initial_epoch)).map
          (fun e => ckptPath a.model_dir (e + 1)) := by
  rw [train_eq_of_some env a v hv hne]
  simp only [savedPaths_append, savedPaths_fitTrace]
  cases hm : env.modelDirExists <;> cases hl : a.load_model_file <;>
    simp [savedPaths, loadEvents, hm, hl]

theorem pathJoin_right_inj {d a b : String} (h : pathJoin d a = pathJoin d b) :
    a = b := by
  unfold pathJoin at h
  have h2 := congrArg String.data h
  simp only [String.data_append] at h2
  exact String.ext (List.append_cancel_left h2)

theorem fmt2_min_length (n : Nat) : 2 ≤ (fmt2 n).length := by
  have h : (fmt2 n).length = (List.leftpad 2 '0' (Nat.toDigits 10 n)).length := rfl
  rw [h, List.leftpad_length]
  exact le_max_left _ _

/-- Claim C5: the CLI takes positional `data_dir` and has defaults
`--lr` 1e-4, `--epochs` 1500, `--prior_lambda` 10, `--image_sigma` 0.02,
`--steps_per_epoch` 100, `--batch_size` 1. -/
theorem claim_C5 (d : String) :
    (cliDefaults d).data_dir = d ∧
    (cliDefaults d).lr = 1e-4 ∧
    (cliDefaults d).nb_epochs = 1500 ∧
    (cliDefaults d).prior_lambda = 10 ∧
    (cliDefaults d).image_sigma = 0.02 ∧
    (cliDefaults d).steps_per_epoch = 100 ∧
    (cliDefaults d).batch_size = 1 :=
  ⟨rfl, rfl, rfl, rfl, rfl, rfl, rfl⟩

/-- Claim C1: with no `*.npz` file in the data directory, `train` fails
(with the `noTrainingData` assertion when the atlas loads), and the trace
contains no GPU-device configuration, session configuration or
model-build event. -/
theorem claim_C1 (env : Env) (a : Args)
    (hperm : ∀ l, (env.shuffle l).Perm l)
    (hempty : env.dirEntries.filter matchesNpzPattern = []) :
    ((train env a).error ≠ none ∧
      ∀ e ∈ (train env a).trace, isDeviceEvent e = false) ∧
    (∀ v, env.atlas = some v →
      (train env a).error = some TrainError.noTrainingData) := by
  have hs : env.shuffle (globNpz a.data_dir env.dirEntries) = [] := by
    have hg : globNpz a.data_dir env.dirEntries = [] := by
      simp [globNpz, hempty]
    rw [hg]
    exact (hperm []).eq_nil
  cases henv : env.atlas with
  | none =>
    have ht : train env a =
        { trace := [Event.loadAtlas a.atlas_file]
          error := some TrainError.atlasLoadError } := by
      simp [train, henv]
    refine ⟨⟨by rw [ht]; simp, ?_⟩, ?_⟩
    · intro e he
      rw [ht] at he
      simp only [List.mem_singleton] at he
      subst he
      rfl
    · intro v hv
      exact Option.noConfusion hv
  | some v =>
    have ht : train env a =
        { trace := [Event.loadAtlas a.atlas_file, Event.globData a.data_dir,
                    Event.shuffleData]
          error := some TrainError.noTrainingData } := by
      simp [train, henv, hs]
    refine ⟨⟨by rw [ht]; simp, ?_⟩, fun _ _ => by rw [ht]⟩
    intro e he
    rw [ht] at he
    simp only [List.mem_cons, List.not_mem_nil, or_false] at he
    rcases he with rfl | rfl | rfl <;> rfl

/-- Claim C1, witnessed at a directory holding only `note.txt`. -/
theorem claim_C1_witness :
    (train emptyDataEnv sampleArgs).error = some TrainError.noTrainingData ∧
    ∀ e ∈ (train emptyDataEnv sampleArgs).trace, isDeviceEvent e = false := by
  have h := claim_C1 emptyDataEnv sampleArgs (fun l => List.Perm.refl l) (by decide)
  exact ⟨h.2 sampleAtlas rfl, h.1.2⟩

/-- Claim C10: the atlas is read before the training-data check: the very
first event of any run is the atlas load; with a failing atlas load
`train` aborts with the atlas error whatever the data directory holds
(in particular when it is empty); and the `noTrainingData` assertion is
reached only when the atlas loaded successfully. -/
theorem claim_C10 :
    (∀ env a, (train env a).trace.head? = some (Event.loadAtlas a.atlas_file)) ∧
    (∀ env a, env.atlas = none →
      (train env a).error = some TrainError.atlasLoadError) ∧
    (∀ a, (train { atlas := none, dirEntries := [], shuffle := id,
                   modelDirExists := false } a).error
      = some TrainError.atlasLoadError) ∧
    (∀ env a, (train env a).error = some TrainError.noTrainingData →
      env.atlas ≠ none) := by
  have hfirst : ∀ env a, (train env a).trace.head? = some (Event.loadAtlas a.atlas_file) := by
    intro env a
    cases henv : env.atlas with
    | none => simp [train, henv]
    | some v =>
      by_cases h0 : (env.shuffle (globNpz a.data_dir env.dirEntries)).length = 0 <;>
        simp [train, henv, h0]
  refine ⟨hfirst, ?_, ?_, ?_⟩
  · intro env a hv
    simp [train, hv]
  · intro a
    rfl
  · intro env a herr hnone
    have ht : train env a =
        { trace := [Event.loadAtlas a.atlas_file]
          error := some TrainError.atlasLoadError } := by
      simp [train, hnone]
    rw [ht] at herr
    exact TrainError.noConfusion (Option.some.inj herr)

theorem fitTrace_length (md : String) (i n s : Nat) :
    (fitTrace md i n s).length = (n - i) * (s + 1) := by
  simp only [fitTrace, List.length_flatten, List.map_map]
  have hf : (List.length ∘ fun e : Nat =>
      (List.range s).map (Event.trainStep e) ++ [Event.checkpoint (ckptPath md (e + 1))])
      = fun _ : Nat => s + 1 := by
    funext e
    simp
  rw [hf]
  simp [List.map_const', List.sum_replicate, Nat.smul_one_eq_cast]

/-- Claim C2: on a successful run the trace is a prefix of
preparatory events (none of which is a setup or loop event), followed by
exactly: build the network, then the optional weight load, then the
epoch-`initial_epoch` save, then the compile with the Adam optimizer and
the two losses `recon_loss` and `kl_loss`, and only then the fit loop,
whose events are solely optimization steps and checkpoints and whose
length is exactly `(nb_epochs - initial_epoch)` epochs of
`steps_per_epoch` steps plus one checkpoint each, terminating when
`nb_epochs` is reached. -/
theorem claim_C2 (env : Env) (a : Args) (v : NpArray)
    (hv : env.atlas = some v)
    (hne : env.shuffle (globNpz a.data_dir env.dirEntries) ≠ []) :
    ∃ pre : List Event,
      (train env a).trace = pre
        ++ [Event.buildModel ((expandDims v).shape.drop 1).dropLast]
        ++ loadEvents a.load_model_file
        ++ [Event.saveModel (ckptPath a.model_dir a.initial_epoch),
            Event.compileModel "Adam" ["recon_loss", "kl_loss"]]
        ++ fitTrace a.model_dir a.initial_epoch a.nb_epochs a.steps_per_epoch ∧
      (∀ e ∈ pre, isSetupEvent e = false ∧ isLoopEvent e = false) ∧
      (∀ e ∈ fitTrace a.model_dir a.initial_epoch a.nb_epochs a.steps_per_epoch,
        isLoopEvent e = true) ∧
      (fitTrace a.model_dir a.initial_epoch a.nb_epochs a.steps_per_epoch).length
        = (a.nb_epochs - a.initial_epoch) * (a.steps_per_epoch + 1) := by
  refine ⟨[Event.loadAtlas a.atlas_file, Event.globData a.data_dir, Event.shuffleData]
      ++ (if env.modelDirExists then [] else [Event.mkModelDir a.model_dir])
      ++ [Event.setCudaEnv a.gpu_id, Event.configSession], ?_, ?_, ?_, ?_⟩
  · rw [train_eq_of_some env a v hv hne]
    simp [List.append_assoc]
  · intro e he
    have hvals : e = Event.loadAtlas a.atlas_file ∨ e = Event.globData a.data_dir ∨
        e = Event.shuffleData ∨ e = Event.mkModelDir a.model_dir ∨
        e = Event.setCudaEnv a.gpu_id ∨ e = Event.configSession := by
      cases hm : env.modelDirExists <;> rw [hm] at he <;> simp at he <;> tauto
    rcases hvals with rfl | rfl | rfl | rfl | rfl | rfl <;> exact ⟨rfl, rfl⟩
  · exact fun e he => fitTrace_loop he
  · exact fitTrace_length a.model_dir a.initial_epoch a.nb_epochs a.steps_per_epoch

/-- Claim C2, witnessed at the sample environment and arguments. -/
theorem claim_C2_witness :
    ∃ pre : List Event,
      (train sampleEnv sampleArgs).trace = pre
        ++ [Event.buildModel ((expandDims sampleAtlas).shape.drop 1).dropLast]
        ++ loadEvents sampleArgs.load_model_file
        ++ [Event.saveModel (ckptPath sampleArgs.model_dir sampleArgs.initial_epoch),
            Event.compileModel "Adam" ["recon_loss", "kl_loss"]]
        ++ fitTrace sampleArgs.model_dir sampleArgs.initial_epoch
            sampleArgs.nb_epochs sampleArgs.steps_per_epoch ∧
      (∀ e ∈ pre, isSetupEvent e = false ∧ isLoopEvent e = false) ∧
      (∀ e ∈ fitTrace sampleArgs.model_dir sampleArgs.initial_epoch
          sampleArgs.nb_epochs sampleArgs.steps_per_epoch, isLoopEvent e = true) ∧
      (fitTrace sampleArgs.model_dir sampleArgs.initial_epoch
          sampleArgs.nb_epochs sampleArgs.steps_per_epoch).length
        = (sampleArgs.nb_epochs - sampleArgs.initial_epoch)
            * (sampleArgs.steps_per_epoch + 1) :=
  claim_C2 sampleEnv sampleArgs sampleAtlas rfl (by decide)

/-- Claim C3: with `initial_epoch = 0`, `nb_epochs = 2` and
`steps_per_epoch = 5`, a successful run writes exactly three pairwise
distinct checkpoint artifacts: `00.h5` (the initial save) and `01.h5`,
`02.h5` (one per epoch), all under `model_dir`. -/
theorem claim_C3 (env : Env) (a : Args) (v : NpArray)
    (hv : env.atlas = some v)
    (hne : env.shuffle (globNpz a.data_dir env.dirEntries) ≠ [])
    (hi : a.initial_epoch = 0) (hn : a.nb_epochs = 2) (_hs : a.steps_per_epoch = 5) :
    savedPaths (train env a).trace
      = [pathJoin a.model_dir "00.h5", pathJoin a.model_dir "01.h5",
         pathJoin a.model_dir "02.h5"] ∧
    (savedPaths (train env a).trace).Nodup := by
  have h := savedPaths_train env a v hv hne
  rw [hi, hn] at h
  have hr : List.range' 0 (2 - 0) = [0, 1] := rfl
  rw [hr] at h
  have e0 : fmt2 0 ++ ".h5" = "00.h5" := by decide
  have e1 : fmt2 1 ++ ".h5" = "01.h5" := by decide
  have e2 : fmt2 2 ++ ".h5" = "02.h5" := by decide
  have hlist : savedPaths (train env a).trace
      = [pathJoin a.model_dir "00.h5", pathJoin a.model_dir "01.h5",
         pathJoin a.model_dir "02.h5"] := by
    rw [h]
    simp [ckptPath, e0, e1, e2]
  have hne01 : pathJoin a.model_dir "00.h5" ≠ pathJoin a.model_dir "01.h5" := by
    intro hcontra
    exact absurd (pathJoin_right_inj hcontra) (by decide)
  have hne02 : pathJoin a.model_dir "00.h5" ≠ pathJoin a.model_dir "02.h5" := by
    intro hcontra
    exact absurd (pathJoin_right_inj hcontra) (by decide)
  have hne12 : pathJoin a.model_dir "01.h5" ≠ pathJoin a.model_dir "02.h5" := by
    intro hcontra
    exact absurd (pathJoin_right_inj hcontra) (by decide)
  refine ⟨hlist, ?_⟩
  rw [hlist]
  simp [List.nodup_cons, hne01, hne02, hne12]

/-- Claim C3, witnessed at the sample environment and arguments
(`steps_per_epoch = 5`, `nb_epochs = 2`, `initial_epoch = 0`). -/
theorem claim_C3_witness :
    savedPaths (train sampleEnv sampleArgs).trace
      = [pathJoin "m" "00.h5", pathJoin "m" "01.h5", pathJoin "m" "02.h5"] ∧
    (savedPaths (train sampleEnv sampleArgs).trace).Nodup :=
  claim_C3 sampleEnv sampleArgs sampleAtlas rfl (by decide) rfl rfl rfl

/-- Claim C4 (amended): the weight-loading step runs exactly when
`load_model_file` is not Python `None`; but the CLI default for
`--load_model_file` is the concrete path
`../models/miccai2018_10_02_init1.h5` rather than `None`, so an
invocation that does not supply the option still loads initial weights
from that default path. -/
theorem claim_C4 (env : Env) (a : Args) (v : NpArray) (d : String)
    (hv : env.atlas = some v)
    (hne : env.shuffle (globNpz a.data_dir env.dirEntries) ≠ []) :
    ((∀ f, a.load_model_file = some f →
        Event.loadWeights f ∈ (train env a).trace) ∧
     (a.load_model_file = none →
        ∀ f, Event.loadWeights f ∉ (train env a).trace)) ∧
    (cliDefaults d).load_model_file = some "../models/miccai2018_10_02_init1.h5" := by
  refine ⟨⟨?_, ?_⟩, rfl⟩
  · intro f hf
    rw [train_eq_of_some env a v hv hne]
    simp [loadEvents, hf]
  · intro hnone f hmem
    rw [train_eq_of_some env a v hv hne] at hmem
    cases hm : env.modelDirExists <;>
      simp only [hnone, hm, loadEvents, if_true, if_false, List.append_nil,
        List.nil_append, List.mem_append, List.mem_cons, List.not_mem_nil,
        or_false, false_or, reduceCtorEq] at hmem <;>
      simpa [isLoopEvent] using fitTrace_loop hmem

/-- Claim C4, counterexample to the claim as stated: a default-argument
invocation (no `--load_model_file` supplied) has a non-`None` model file
and its run does perform the weight-loading step. -/
theorem claim_C4_counterexample :
    (cliDefaults "d").load_model_file = some "../models/miccai2018_10_02_init1.h5" ∧
    Event.loadWeights "../models/miccai2018_10_02_init1.h5"
      ∈ (train cliEnv (cliDefaults "d")).trace := by
  refine ⟨rfl, ?_⟩
  rw [train_eq_of_some cliEnv (cliDefaults "d") sampleAtlas rfl (by decide)]
  simp [loadEvents, cliDefaults]

/-- Claim C4 (amended), witnessed at a default-argument invocation. -/
theorem claim_C4_witness :
    Event.loadWeights "../models/miccai2018_10_02_init1.h5"
      ∈ (train cliEnv (cliDefaults "dd")).trace ∧
    (cliDefaults "dd").load_model_file = some "../models/miccai2018_10_02_init1.h5" := by
  have h := claim_C4 cliEnv (cliDefaults "dd") sampleAtlas "dd" rfl (by decide)
  exact ⟨h.1.1 _ rfl, h.2⟩

theorem loop_not_loadAtlas {e : Event} (h : isLoopEvent e = true) :
    isLoadAtlas e = false := by
  cases e <;> simp_all [isLoopEvent, isLoadAtlas]

/-- Claim C6: on a successful run the atlas handed to the data generator
is exactly the once-loaded `vol` array, extended with a leading batch and
a trailing channel singleton dimension, then replicated `batch_size`
times along the batch axis (its data is the `batch_size`-fold repetition
of the loaded data, so no slice is altered); and the trace holds exactly
one atlas-load event. -/
theorem claim_C6 (env : Env) (a : Args) (v : NpArray)
    (hv : env.atlas = some v)
    (hne : env.shuffle (globNpz a.data_dir env.dirEntries) ≠ [])
    (hwf : v.data.length = v.shape.prod) :
    (train env a).genAtlas = some (npRepeatAxis0 (expandDims v) a.batch_size) ∧
    expandDims v = { shape := 1 :: v.shape ++ [1], data := v.data } ∧
    npRepeatAxis0 (expandDims v) a.batch_size
      = { shape := a.batch_size :: v.shape ++ [1]
          data := (List.replicate a.batch_size v.data).flatten } ∧
    (train env a).trace.countP isLoadAtlas = 1 := by
  have hprod : (v.shape ++ [1]).prod = v.data.length := by
    simp [hwf]
  refine ⟨?_, rfl, ?_, ?_⟩
  · rw [train_eq_of_some env a v hv hne]
  · simp only [npRepeatAxis0, expandDims]
    refine congrArg₂ NpArray.mk (by simp) ?_
    simp [hprod, List.take_length, List.range_succ]
  · rw [train_eq_of_some env a v hv hne]
    simp only [List.countP_append]
    have hfit : (fitTrace a.model_dir a.initial_epoch a.nb_epochs
        a.steps_per_epoch).countP isLoadAtlas = 0 := by
      refine List.countP_eq_zero.mpr (fun e he => ?_)
      simp [loop_not_loadAtlas (fitTrace_loop he)]
    cases hm : env.modelDirExists <;> cases hl : a.load_model_file <;>
      simp [hfit, loadEvents, List.countP_cons, isLoadAtlas]

/-- Claim C6, witnessed at the sample inputs with `batch_size = 1`. -/
theorem claim_C6_witness :
    (train sampleEnv sampleArgs).genAtlas
      = some (npRepeatAxis0 (expandDims sampleAtlas) 1) ∧
    npRepeatAxis0 (expandDims sampleAtlas) 1
      = { shape := 1 :: [2] ++ [1]
          data := (List.replicate 1 sampleAtlas.data).flatten } ∧
    (train sampleEnv sampleArgs).trace.countP isLoadAtlas = 1 := by
  have h := claim_C6 sampleEnv sampleArgs sampleAtlas rfl (by decide) rfl
  exact ⟨h.1, h.2.2.1, h.2.2.2⟩

/-- Claim C7: every checkpoint artifact a successful run writes (the
initial save and every per-epoch save) lies under `model_dir` with a
name that is the zero-padded epoch number followed by `.h5`, and the
zero-padding is to a minimum of two digits. -/
theorem claim_C7 (env : Env) (a : Args) (v : NpArray)
    (hv : env.atlas = some v)
    (hne : env.shuffle (globNpz a.data_dir env.dirEntries) ≠ []) :
    (∀ p ∈ savedPaths (train env a).trace,
      ∃ e, p = pathJoin a.model_dir (fmt2 e ++ ".h5")) ∧
    (∀ n, 2 ≤ (fmt2 n).length) := by
  refine ⟨?_, fmt2_min_length⟩
  intro p hp
  rw [savedPaths_train env a v hv hne] at hp
  rcases List.mem_cons.mp hp with rfl | hmem
  · exact ⟨a.initial_epoch, rfl⟩
  · obtain ⟨ep, _, rfl⟩ := List.mem_map.mp hmem
    exact ⟨ep + 1, rfl⟩

/-- Claim C7, witnessed at the first artifact of the sample run. -/
theorem claim_C7_witness :
    pathJoin "m" "00.h5" ∈ savedPaths (train sampleEnv sampleArgs).trace ∧
    ∃ e, pathJoin "m" "00.h5" = pathJoin sampleArgs.model_dir (fmt2 e ++ ".h5") := by
  have hm : pathJoin "m" "00.h5" ∈ savedPaths (train sampleEnv sampleArgs).trace := by
    decide
  exact ⟨hm, (claim_C7 sampleEnv sampleArgs sampleAtlas rfl (by decide)).1 _ hm⟩

/-- Claim C8: on a successful run, when `model_dir` does not exist it is
created before any checkpoint artifact is written (the creation event
precedes every save in the trace), and when it already exists no
directory-creation event occurs at all. -/
theorem claim_C8 (env : Env) (a : Args) (v : NpArray)
    (hv : env.atlas = some v)
    (hne : env.shuffle (globNpz a.data_dir env.dirEntries) ≠ []) :
    (env.modelDirExists = false →
      ∃ l1 l2, (train env a).trace = l1 ++ Event.mkModelDir a.model_dir :: l2 ∧
        savedPaths l1 = []) ∧
    (env.modelDirExists = true →
      ∀ d, Event.mkModelDir d ∉ (train env a).trace) := by
  constructor
  · intro hm
    refine ⟨[Event.loadAtlas a.atlas_file, Event.globData a.data_dir, Event.shuffleData],
      [Event.setCudaEnv a.gpu_id, Event.configSession,
        Event.buildModel ((expandDims v).shape.drop 1).dropLast]
        ++ loadEvents a.load_model_file
        ++ [Event.saveModel (ckptPath a.model_dir a.initial_epoch),
            Event.compileModel "Adam" ["recon_loss", "kl_loss"]]
        ++ fitTrace a.model_dir a.initial_epoch a.nb_epochs a.steps_per_epoch,
      ?_, rfl⟩
    rw [train_eq_of_some env a v hv hne]
    simp [hm]
  · intro hm d hmem
    rw [train_eq_of_some env a v hv hne] at hmem
    cases hl : a.load_model_file <;>
      simp only [hm, hl, loadEvents, if_true, List.append_nil, List.nil_append,
        List.mem_append, List.mem_cons, List.not_mem_nil, or_false, false_or,
        reduceCtorEq] at hmem <;>
      simpa [isLoopEvent] using fitTrace_loop hmem

/-- Claim C8, witnessed: with an absent model directory the creation
event precedes every artifact write. -/
theorem claim_C8_witness :
    ∃ l1 l2,
      (train { sampleEnv with modelDirExists := false } sampleArgs).trace
        = l1 ++ Event.mkModelDir sampleArgs.model_dir :: l2 ∧
      savedPaths l1 = [] :=
  (claim_C8 { sampleEnv with modelDirExists := false } sampleArgs sampleAtlas
    rfl (by decide)).1 rfl

/-- A second sample environment, identical to `sampleEnv` except that
the unseeded shuffle happens to reverse the list. -/
def sampleEnvRev : Env :=
  { sampleEnv with shuffle := List.reverse }

/-- Claim C9: on a successful run with a permuting shuffle, the training
list is a permutation of the `*.npz` files directly inside `data_dir`
(membership holds exactly for the matching directory entries); and two
runs over identical directory contents, atlas and model-dir state can
present the volumes in different orders, since the unseeded shuffle is
part of the environment, not of the inputs. -/
theorem claim_C9 :
    (∀ (env : Env) (a : Args) (v : NpArray), env.atlas = some v →
      (∀ l, (env.shuffle l).Perm l) →
      env.shuffle (globNpz a.data_dir env.dirEntries) ≠ [] →
      ((train env a).volNames.Perm (globNpz a.data_dir env.dirEntries) ∧
       ∀ p, p ∈ (train env a).volNames ↔
         ∃ name ∈ env.dirEntries, matchesNpzPattern name = true ∧
           p = pathJoin a.data_dir name)) ∧
    (∃ env1 env2 : Env, ∃ a : Args,
      env1.atlas = env2.atlas ∧ env1.dirEntries = env2.dirEntries ∧
      env1.modelDirExists = env2.modelDirExists ∧
      (∀ l, (env1.shuffle l).Perm l) ∧ (∀ l, (env2.shuffle l).Perm l) ∧
      (train env1 a).error = none ∧ (train env2 a).error = none ∧
      (train env1 a).volNames ≠ (train env2 a).volNames) := by
  constructor
  · intro env a v hv hperm hne
    have hvol : (train env a).volNames
        = env.shuffle (globNpz a.data_dir env.dirEntries) := by
      rw [train_eq_of_some env a v hv hne]
    constructor
    · rw [hvol]
      exact hperm _
    · intro p
      rw [hvol, (hperm _).mem_iff]
      constructor
      · intro hp
        simp only [globNpz, List.mem_map, List.mem_filter] at hp
        obtain ⟨name, ⟨hmem, hmatch⟩, rfl⟩ := hp
        exact ⟨name, hmem, hmatch, rfl⟩
      · rintro ⟨name, hmem, hmatch, rfl⟩
        simp only [globNpz, List.mem_map, List.mem_filter]
        exact ⟨name, ⟨hmem, hmatch⟩, rfl⟩
  · exact ⟨sampleEnv, sampleEnvRev, sampleArgs, rfl, rfl, rfl,
      fun l => List.Perm.refl l, fun l => List.reverse_perm l,
      by decide, by decide, by decide⟩

/-- Claim C9, witnessed at the sample environment. -/
theorem claim_C9_witness :
    (train sampleEnv sampleArgs).volNames.Perm
      (globNpz sampleArgs.data_dir sampleEnv.dirEntries) ∧
    ((pathJoin "d" "a.npz") ∈ (train sampleEnv sampleArgs).volNames ↔
      ∃ name ∈ sampleEnv.dirEntries, matchesNpzPattern name = true ∧
        pathJoin "d" "a.npz" = pathJoin sampleArgs.data_dir name) := by
  have h := claim_C9.1 sampleEnv sampleArgs sampleAtlas rfl
    (fun l => List.Perm.refl l) (by decide)
  exact ⟨h.1, h.2 _⟩

/-- Claim C10, witnessed: the first trace event of a sample run is the
atlas load, and with a failing atlas and an empty data directory the
run aborts with the atlas error. -/
theorem claim_C10_witness :
    (train sampleEnv sampleArgs).trace.head?
      = some (Event.loadAtlas sampleArgs.atlas_file) ∧
    (train { atlas := none, dirEntries := [], shuffle := id,
             modelDirExists := false } sampleArgs).error
      = some TrainError.atlasLoadError :=
  ⟨claim_C10.1 sampleEnv sampleArgs, claim_C10.2.2.1 sampleArgs⟩

/-- Claim C5, witnessed at a concrete invocation. -/
theorem claim_C5_witness :
    (cliDefaults "x").data_dir = "x" ∧
    (cliDefaults "x").nb_epochs = 1500 ∧
    (cliDefaults "x").steps_per_epoch = 100 ∧
    (cliDefaults "x").batch_size = 1 := by
  have h := claim_C5 "x"
  exact ⟨h.1, h.2.2.1, h.2.2.2.2.2.1, h.2.2.2.2.2.2⟩

end Voxelmorph
